import Mathlib

/-!
Verification of the JSON-to-graph import/export engine of `neptuneaccess.py`
(class NeptuneAccess): the tree importer
(`import_json` / `create_nodes_from_python_data` / `dict_importer` / `list_importer`)
and the dump restorer (`import_json_dump`).

The graph store and its three collaborator primitives
(`create_node`, `create_node_with_links`, `link_nodes_by_ids`) are modelled as
explicit state passing over a store value that records the created nodes and
relationships; internal ids are assigned sequentially from `nextId`.
Python dictionaries that come from parsed JSON are modelled as ordered
association lists, and Python runtime errors (KeyError, TypeError, ValueError)
that the restore code can hit are modelled explicitly.
-/

namespace NeptuneAccess

/-- A parsed JSON value (the Python data produced by `json.loads`):
None, a scalar literal (int/float are collapsed into `num`), a list,
or a dict with insertion-ordered entries. -/
inductive Json where
  | null
  | num (n : Int)
  | str (s : String)
  | bool (b : Bool)
  | arr (items : List Json)
  | obj (entries : List (String × Json))
deriving Repr

/-- Source function `is_literal` (neptuneaccess.py line 2564): true for int, float, str, bool;
false for None, lists and dicts. -/
def is_literal : Json → Bool
  | .num _ => true
  | .str _ => true
  | .bool _ => true
  | _ => false

/-- A node of the graph store as created by the tree importer:
its internal id, its label string, and its scalar properties, in insertion order. -/
structure TNode where
  nid : Nat
  labels : String
  props : List (String × Json)
deriving Repr

/-- A relationship of the graph store as created by the tree importer:
`create_node_with_links` with the default direction OUT creates the edge
from the newly created node to the pre-existing one. -/
structure TEdge where
  fromId : Nat
  toId : Nat
  relName : String
deriving Repr, DecidableEq

/-- The graph store visible to the tree importer: the next internal id the
database will assign, and the nodes and relationships created so far. -/
structure TStore where
  nextId : Nat
  nodes : List TNode
  edges : List TEdge
deriving Repr

/-- Collaborator primitive `create_node_with_links(labels, properties, links)`
(line 927): creates one node carrying `props`, plus one relationship per entry
of `links` (a pair of the internal id of an existing node and the relationship
name), directed out of the new node; returns the new node's internal id. -/
def create_node_with_links (labels : String) (props : List (String × Json))
    (links : List (Nat × String)) (st : TStore) : Nat × TStore :=
  let nid := st.nextId
  ( nid
  , { nextId := nid + 1
    , nodes := st.nodes ++ [⟨nid, labels, props⟩]
    , edges := st.edges ++ links.map (fun l => ⟨nid, l.1, l.2⟩) } )

/-- The one failure the tree importer itself can raise (line 2716):
a recursive call on a dictionary returned more than one root node. -/
inductive ImpErr where
  | multipleRoots
deriving Repr, DecidableEq

/-- The literal case of `create_nodes_from_python_data` (lines 2648-2653):
a literal `x` is replaced by the dictionary `{"value": x}` and processing
continues into the dict case.  On such a single-literal-entry dictionary,
`dict_importer` collects the one property and no children and makes a single
`create_node_with_links` call; the theorem `dict_importer_literal_singleton`
below proves this inlining equal to `dict_importer` on the wrapped dict. -/
def literal_importer (lit : Json) (root_labels : String) (st : TStore) :
    List Nat × TStore :=
  let r := create_node_with_links root_labels [("value", lit)] [] st
  ([r.1], r.2)

/- Size measures, used only for termination of the mutually recursive importer. -/
mutual

def jaux : Json → Nat
  | .null => 0
  | .num _ => 0
  | .str _ => 0
  | .bool _ => 0
  | .arr items => lsize items
  | .obj entries => dsize entries

def lsize : List Json → Nat
  | [] => 0
  | j :: rest => (jaux j + 1) + lsize rest

def dsize : List (String × Json) → Nat
  | [] => 0
  | e :: rest => (jaux e.2 + 1) + dsize rest

end

def jsize (j : Json) : Nat := jaux j + 1

mutual

/-- Source function `create_nodes_from_python_data(python_data, root_labels, level)` (line 2623):
recursive import of one Python value, returning the list of ids of the root
node(s) created.  None yields no node; a literal is wrapped as
`{"value": literal}` and imported as a dict; a dict goes through
`dict_importer`; a list goes through `list_importer`, and - unless it is the
top-level input (`level == 1`) - its element roots are all attached to one
extra parent node carrying no properties (lines 2667-2677). -/
def create_nodes_from_python_data (python_data : Json) (root_labels : String)
    (level : Nat) (st : TStore) : Except ImpErr (List Nat × TStore) :=
  match python_data with
  | .null => .ok ([], st)
  | .num n => .ok (literal_importer (.num n) root_labels st)
  | .str s => .ok (literal_importer (.str s) root_labels st)
  | .bool b => .ok (literal_importer (.bool b) root_labels st)
  | .obj entries =>
    match dict_importer entries root_labels level st with
    | .error e => .error e
    | .ok (new_root_id, st2) => .ok ([new_root_id], st2)
  | .arr items =>
    match list_importer items root_labels level st with
    | .error e => .error e
    | .ok (children_info, st2) =>
      if level = 1 then
        .ok (children_info, st2)
      else
        let children_list := children_info.map (fun child_id => (child_id, root_labels))
        let r := create_node_with_links root_labels [] children_list st2
        .ok ([r.1], r.2)
termination_by 3 * jsize python_data
decreasing_by
  all_goals (simp [jsize, jaux, lsize, dsize] <;> omega)

/-- Source function `dict_importer(d, labels, level)` (line 2684): scan all entries collecting
scalar properties and child links, then create the node last (postorder). -/
def dict_importer (entries : List (String × Json)) (labels : String)
    (level : Nat) (st : TStore) : Except ImpErr (Nat × TStore) :=
  match dict_scan entries level st with
  | .error e => .error e
  | .ok (node_properties, children_info, st2) =>
    .ok (create_node_with_links labels node_properties children_info st2)
termination_by 3 * dsize entries + 2
decreasing_by
  all_goals (simp [jsize, jaux, lsize, dsize] <;> omega)

/-- The entry loop of `dict_importer` (lines 2701-2728), processing the
entries in insertion order: a literal value becomes a property; a dict value
is imported recursively at `level + 1` (raising `multipleRoots` if more than
one root comes back, contributing a child link if exactly one); a list value
goes through `list_importer` at the same level, one child link per returned
id; a None value is disregarded. -/
def dict_scan (entries : List (String × Json)) (level : Nat) (st : TStore) :
    Except ImpErr (List (String × Json) × List (Nat × String) × TStore) :=
  match entries with
  | [] => .ok ([], [], st)
  | (k, v) :: rest =>
    if is_literal v then
      match dict_scan rest level st with
      | .error e => .error e
      | .ok (props, children, st2) => .ok ((k, v) :: props, children, st2)
    else
      match v with
      | .obj sub =>
        match create_nodes_from_python_data (.obj sub) k (level + 1) st with
        | .error e => .error e
        | .ok (new_node_id_list, st2) =>
          if new_node_id_list.length > 1 then
            .error .multipleRoots
          else
            match new_node_id_list with
            | [new_node_id] =>
              match dict_scan rest level st2 with
              | .error e => .error e
              | .ok (props, children, st3) =>
                .ok (props, (new_node_id, k) :: children, st3)
            | _ =>
              dict_scan rest level st2
      | .arr sub =>
        match list_importer sub k level st with
        | .error e => .error e
        | .ok (new_children, st2) =>
          match dict_scan rest level st2 with
          | .error e => .error e
          | .ok (props, children, st3) =>
            .ok (props, new_children.map (fun child_id => (child_id, k)) ++ children, st3)
      | _ =>
        dict_scan rest level st
termination_by 3 * dsize entries + 1
decreasing_by
  all_goals (simp [jsize, jaux, lsize, dsize] <;> omega)

/-- Source function `list_importer(l, labels, level)` (line 2736): an empty list yields no
node; otherwise each element is imported recursively at `level + 1` and the
returned id lists are concatenated. -/
def list_importer (items : List Json) (labels : String) (level : Nat)
    (st : TStore) : Except ImpErr (List Nat × TStore) :=
  match items with
  | [] => .ok ([], st)
  | item :: rest =>
    match create_nodes_from_python_data item labels (level + 1) st with
    | .error e => .error e
    | .ok (ids, st2) =>
      match list_importer rest labels level st2 with
      | .error e => .error e
      | .ok (ids2, st3) => .ok (ids ++ ids2, st3)
termination_by 3 * lsize items + 1
decreasing_by
  all_goals (simp [jsize, jaux, lsize, dsize] <;> omega)

end

/-! ## The dump restorer (`import_json_dump`, line 2766)

The input is the parsed JSON list of dump records; each record is an arbitrary
`Json` value.  Python's runtime behaviours that the code can hit are modelled
explicitly: subscripting (`item["k"]`, KeyError / TypeError), `dict.get`,
`int(x)` (ValueError on an unparseable string, TypeError on None / list / dict),
and the `in` containment test. -/

/-- Python errors (and one injected collaborator failure) that can arise
while the restore code runs. -/
inductive PyErr where
  | typeError
  | keyError (k : String)
  | valueError
  | nodeCreationFailed
  | danglingStart (relName : Json) (namedId : Int)
  | danglingEnd (relName : Json) (namedId : Int)
deriving Repr

/-- Ordered-dict lookup: the value of the first entry with the given key. -/
def lookupEntry : List (String × Json) → String → Option Json
  | [], _ => none
  | (k2, v) :: rest, k => if k2 = k then some v else lookupEntry rest k

/-- Python `item.get(k)`: `None` when the key is missing.  Only ever reached
on dict values in the modelled code paths. -/
def jGet : Json → String → Option Json
  | .obj entries, k => lookupEntry entries k
  | _, _ => none

/-- Python `item[k]` for a string key: KeyError when a dict lacks the key,
TypeError when the value is not a dict (string/list subscripts require
integers; numbers and None are not subscriptable). -/
def jIndex : Json → String → Except PyErr Json
  | .obj entries, k =>
    match lookupEntry entries k with
    | some v => .ok v
    | none => .error (.keyError k)
  | _, _ => .error .typeError

/-- Python `value == "s"` for a string literal `"s"`: true exactly for the
equal string; values of any other type compare unequal (no error). -/
def jeqStr (j : Json) (s : String) : Bool :=
  match j with
  | .str s2 => s2 = s
  | _ => false

/-- The numeric value of a decimal digit character. -/
def digitVal (c : Char) : Option Nat :=
  let n := c.toNat
  if 48 ≤ n ∧ n ≤ 57 then some (n - 48) else none

/-- Parse a non-empty run of decimal digits (None on empty input or on any
non-digit character). -/
def parseDigits : List Char → Option Nat → Option Nat
  | [], acc => acc
  | c :: rest, acc =>
    match digitVal c with
    | none => none
    | some d =>
      let a := match acc with | none => 0 | some a => a
      parseDigits rest (some (a * 10 + d))

/-- Python `int(s)` on a string: an optional sign followed by decimal digits
(Python additionally strips whitespace and allows underscore separators -
forms no dump record uses and no claim depends on). -/
def pyIntOfString (s : String) : Option Int :=
  match s.data with
  | '-' :: rest => (parseDigits rest none).map (fun n => -(n : Int))
  | '+' :: rest => (parseDigits rest none).map (fun n => (n : Int))
  | chars => (parseDigits chars none).map (fun n => (n : Int))

/-- Python `int(x)` on a parsed-JSON value: an int stays an int, a bool maps
to 0/1, a string must parse as an integer (otherwise ValueError), and
None / lists / dicts raise TypeError. -/
def pyInt : Json → Except PyErr Int
  | .num n => .ok n
  | .bool b => .ok (if b then 1 else 0)
  | .str s =>
    match pyIntOfString s with
    | some n => .ok n
    | none => .error .valueError
  | _ => .error .typeError

/-- Python `"k" in x`: key containment for a dict, substring containment for
a string, elementwise equality for a list, TypeError otherwise. -/
def jContains : Json → String → Except PyErr Bool
  | .obj entries, k => .ok ((lookupEntry entries k).isSome)
  | .str s, k => .ok (decide ((s.splitOn k).length > 1))
  | .arr items, k => .ok (items.any (fun j => jeqStr j k))
  | _, _ => .error .typeError

/-- A node created during a restore: `create_node(labels, properties)` is
called with `item.get("labels")` and `item.get("properties")` (line 2844),
either of which may be absent. -/
structure RNode where
  nid : Nat
  labels : Option Json
  props : Option Json
deriving Repr

/-- A relationship created during a restore by `link_nodes_by_ids`
(line 2878): from the shifted start id to the shifted end id. -/
structure REdge where
  fromId : Nat
  toId : Nat
  relName : Json
  props : Option Json
deriving Repr

/-- The graph store visible to the restorer. -/
structure RStore where
  nextId : Nat
  nodes : List RNode
  edges : List REdge
deriving Repr

/-- Collaborator primitive `create_node(labels, properties)` (line 787). -/
def create_node (labels props : Option Json) (st : RStore) : Nat × RStore :=
  let nid := st.nextId
  (nid, { nextId := nid + 1, nodes := st.nodes ++ [⟨nid, labels, props⟩], edges := st.edges })

/-- Collaborator primitive `link_nodes_by_ids(id1, id2, rel, rel_props)`
(line 1599): adds one relationship from the first node to the second. -/
def link_nodes_by_ids (node_id1 node_id2 : Nat) (rel : Json) (rel_props : Option Json)
    (st : RStore) : RStore :=
  { st with edges := st.edges ++ [⟨node_id1, node_id2, rel, rel_props⟩] }

/-- The id-shifting map (line 2800), local to one restore call: original
internal id of the dump → newly assigned internal id. -/
def updateShift (shift : Int → Option Nat) (k : Int) (v : Nat) : Int → Option Nat :=
  fun x => if x = k then some v else shift x

/-- A failure of the extended-validation pass (lines 2803-2833): either one of
the formatted Exceptions, which name the offending record's index and content,
or a bare Python error that the validation loop does not catch (for example
the TypeError from `int(item["id"])` when the id is None, a list or a dict:
the `except ValueError` clause at line 2819 does not catch it). -/
inductive ValErr where
  | notADict (i : Nat) (item : Json)
  | badType (i : Nat) (item : Json)
  | nodeNoId (i : Nat) (item : Json)
  | nodeIdNotInt (i : Nat) (item : Json)
  | relNoLabel (i : Nat) (item : Json)
  | relNoStart (i : Nat) (item : Json)
  | relNoEnd (i : Nat) (item : Json)
  | relStartNoId (i : Nat) (item : Json)
  | relEndNoId (i : Nat) (item : Json)
  | pyRaised (e : PyErr)
deriving Repr

/-- Python `item.get("type") == "s"` as used by the validation pass:
a missing key yields None, which compares unequal to any string. -/
def optJeqStr (t : Option Json) (s : String) : Bool :=
  match t with
  | some v => jeqStr v s
  | none => false

/-- One iteration of the extended-validation loop (lines 2806-2833). -/
def validate_step (i : Nat) (item : Json) : Option ValErr :=
  match item with
  | .obj entries =>
    let t := lookupEntry entries "type"
    if !(optJeqStr t "node" || optJeqStr t "relationship") then
      some (.badType i item)
    else if optJeqStr t "node" then
      match lookupEntry entries "id" with
      | none => some (.nodeNoId i item)
      | some idv =>
        match pyInt idv with
        | .ok _ => none
        | .error .valueError => some (.nodeIdNotInt i item)
        | .error e => some (.pyRaised e)
    else
      match lookupEntry entries "label", lookupEntry entries "start", lookupEntry entries "end" with
      | none, _, _ => some (.relNoLabel i item)
      | some _, none, _ => some (.relNoStart i item)
      | some _, some _, none => some (.relNoEnd i item)
      | some _, some sv, some ev =>
        match jContains sv "id" with
        | .error e => some (.pyRaised e)
        | .ok false => some (.relStartNoId i item)
        | .ok true =>
          match jContains ev "id" with
          | .error e => some (.pyRaised e)
          | .ok false => some (.relEndNoId i item)
          | .ok true => none
  | _ => some (.notADict i item)

/-- The extended-validation pass: first failure wins, carrying that record's
index (and, for the formatted Exceptions, the record itself). -/
def validate_items : List Json → Nat → Option ValErr
  | [], _ => none
  | item :: rest, i =>
    match validate_step i item with
    | some e => some e
    | none => validate_items rest (i + 1)

/-- One iteration of the node phase (lines 2839-2847).  `nf` injects
collaborator failures: the k-th `create_node` call of the restore raises iff
`nf k` (the calls are numbered from 1).  On success: updated node count,
id-shifting map and store. -/
def phase1_step (nf : Nat → Bool) (item : Json) (n : Nat)
    (shift : Int → Option Nat) (st : RStore) :
    Except PyErr (Nat × (Int → Option Nat) × RStore) :=
  match jIndex item "type" with
  | .error e => .error e
  | .ok t =>
    if jeqStr t "node" then
      match jIndex item "id" with
      | .error e => .error e
      | .ok idv =>
        match pyInt idv with
        | .error e => .error e
        | .ok old_id =>
          if nf (n + 1) then .error .nodeCreationFailed
          else
            let r := create_node (jGet item "labels") (jGet item "properties") st
            .ok (n + 1, updateShift shift old_id r.1, r.2)
    else .ok (n, shift, st)

/-- Result of the node phase: the node count and id-shifting map on success;
the node count so far and the reason on failure (the store in both cases). -/
inductive P1Out where
  | ok (n : Nat) (shift : Int → Option Nat) (st : RStore)
  | fail (n : Nat) (reason : PyErr) (st : RStore)

/-- The node phase (the first `try` block, lines 2837-2850): iterate the
records in input order, creating a node for each record whose `type` is
`"node"` and extending the id-shifting map; any exception stops the phase. -/
def phase1 (nf : Nat → Bool) : List Json → Nat → (Int → Option Nat) → RStore → P1Out
  | [], n, shift, st => .ok n shift st
  | item :: rest, n, shift, st =>
    match phase1_step nf item n shift st with
    | .error e => .fail n e st
    | .ok (n2, sh2, st2) => phase1 nf rest n2 sh2 st2

/-- One iteration of the relationship phase (lines 2859-2879).  Start and end
original ids are parsed first; a start id absent from the id-shifting map
raises the dangling error naming the start id; an absent end id raises the
dangling error that also names the START id (`start_id_original` is
interpolated at line 2872). -/
def phase2_step (item : Json) (shift : Int → Option Nat) (r : Nat) (st : RStore) :
    Except PyErr (Nat × RStore) :=
  match jIndex item "type" with
  | .error e => .error e
  | .ok t =>
    if jeqStr t "relationship" then
      match jIndex item "label" with
      | .error e => .error e
      | .ok rel_name =>
        let rel_props := jGet item "properties"
        match jIndex item "start" with
        | .error e => .error e
        | .ok sv =>
          match jIndex sv "id" with
          | .error e => .error e
          | .ok sidv =>
            match pyInt sidv with
            | .error e => .error e
            | .ok start_id_original =>
              match jIndex item "end" with
              | .error e => .error e
              | .ok ev =>
                match jIndex ev "id" with
                | .error e => .error e
                | .ok eidv =>
                  match pyInt eidv with
                  | .error e => .error e
                  | .ok end_id_original =>
                    match shift start_id_original with
                    | none => .error (.danglingStart rel_name start_id_original)
                    | some start_id_shifted =>
                      match shift end_id_original with
                      | none => .error (.danglingEnd rel_name start_id_original)
                      | some end_id_shifted =>
                        .ok (r + 1, link_nodes_by_ids start_id_shifted end_id_shifted
                                      rel_name rel_props st)
    else .ok (r, st)

/-- Result of the relationship phase. -/
inductive P2Out where
  | ok (r : Nat) (st : RStore)
  | fail (r : Nat) (reason : PyErr) (st : RStore)

/-- The relationship phase (the second `try` block, lines 2857-2882). -/
def phase2 : List Json → (Int → Option Nat) → Nat → RStore → P2Out
  | [], _, r, st => .ok r st
  | item :: rest, shift, r, st =>
    match phase2_step item shift r st with
    | .error e => .fail r e st
    | .ok (r2, st2) => phase2 rest shift r2 st2

/-- The observable outcome of `import_json_dump`: the success message with its
two counts; the INTERRUPTED Exception with the counts it reports and the
reason it wraps; or a failure of the extended-validation pass. -/
inductive RestoreOutcome where
  | ok (nodes rels : Nat)
  | validationFailed (e : ValErr)
  | interrupted (nodes rels : Nat) (reason : PyErr)
deriving Repr

/-- Source function `import_json_dump(json_str, extended_validation)` (line 2766), applied to
the parsed record list: optional validation pass (before any mutation), then
the node phase, then the relationship phase.  Returns the outcome and the
final state of the graph store. -/
def import_json_dump (records : List Json) (extended_validation : Bool)
    (nf : Nat → Bool) (st : RStore) : RestoreOutcome × RStore :=
  let go : RestoreOutcome × RStore :=
    match phase1 nf records 0 (fun _ => none) st with
    | .fail n e st2 => (.interrupted n 0 e, st2)
    | .ok n shift st2 =>
      match phase2 records shift 0 st2 with
      | .fail r e st3 => (.interrupted n r e, st3)
      | .ok r st3 => (.ok n r, st3)
  if extended_validation then
    match validate_items records 0 with
    | some e => (.validationFailed e, st)
    | none => go
  else go

/-- Discriminator for `Except` results. -/
def exceptOk {ε α : Type} : Except ε α → Bool
  | .ok _ => true
  | .error _ => false

/-- A record that the node phase processes without hitting a Python error:
either its `type` is not `"node"` (the phase skips it), or it is a node
record whose `id` entry converts with `int(...)`.  (`create_node` itself may
still be made to fail through the injected `nf`.) -/
def node_record_ok (item : Json) : Bool :=
  match jIndex item "type" with
  | .error _ => false
  | .ok t =>
    if jeqStr t "node" then
      match jIndex item "id" with
      | .error _ => false
      | .ok idv =>
        match pyInt idv with
        | .ok _ => true
        | .error _ => false
    else true

/-- The number of records whose `type` entry equals `"node"`: the number of
`create_node` calls a clean node phase performs. -/
def countNodeRecords : List Json → Nat
  | [] => 0
  | item :: rest =>
    (match jIndex item "type" with
     | .ok t => if jeqStr t "node" then 1 else 0
     | .error _ => 0) + countNodeRecords rest

/-! ## Theorems -/

/-- Inversion for the dict case of the importer: a successful import of a dict
always returns a one-element root list (the dict branch at lines 2655-2659
returns the literal `[new_root_id]`). -/
theorem cnfpd_obj_shape (entries : List (String × Json)) (labels : String)
    (level : Nat) (st : TStore) (ids : List Nat) (st2 : TStore)
    (h : create_nodes_from_python_data (.obj entries) labels level st = .ok (ids, st2)) :
    ∃ nid, ids = [nid] ∧ dict_importer entries labels level st = .ok (nid, st2) := by
  simp only [create_nodes_from_python_data] at h
  cases hdi : dict_importer entries labels level st with
  | error e => rw [hdi] at h; simp at h
  | ok r =>
    rcases r with ⟨nid, st3⟩
    rw [hdi] at h
    simp at h
    refine ⟨nid, h.1.symm, ?_⟩
    rw [h.2]

mutual

/-- Every import succeeds in this model: the only failure the importer itself
could produce, `multipleRoots`, is never reached. -/
theorem create_nodes_ok (j : Json) (labels : String) (level : Nat) (st : TStore) :
    exceptOk (create_nodes_from_python_data j labels level st) = true := by
  cases j with
  | null => simp [create_nodes_from_python_data, exceptOk]
  | num n => simp [create_nodes_from_python_data, exceptOk]
  | str s => simp [create_nodes_from_python_data, exceptOk]
  | bool b => simp [create_nodes_from_python_data, exceptOk]
  | obj entries =>
    have h := dict_scan_ok entries level st
    cases hds : dict_scan entries level st with
    | error e => rw [hds] at h; simp [exceptOk] at h
    | ok r =>
      rcases r with ⟨props, children, st2⟩
      simp [create_nodes_from_python_data, dict_importer, hds, exceptOk]
  | arr items =>
    have h := list_importer_ok items labels level st
    cases hli : list_importer items labels level st with
    | error e => rw [hli] at h; simp [exceptOk] at h
    | ok r =>
      rcases r with ⟨ids, st2⟩
      by_cases hl : level = 1
      · subst hl
        simp [create_nodes_from_python_data, hli, exceptOk]
      · simp [create_nodes_from_python_data, hli, hl, exceptOk]
termination_by 3 * jsize j
decreasing_by
  all_goals (simp [jsize, jaux, lsize, dsize] <;> omega)

theorem dict_scan_ok (entries : List (String × Json)) (level : Nat) (st : TStore) :
    exceptOk (dict_scan entries level st) = true := by
  match entries with
  | [] => simp [dict_scan, exceptOk]
  | (k, v) :: rest =>
    match v with
    | .num x =>
      have h := dict_scan_ok rest level st
      cases hds : dict_scan rest level st with
      | error e => rw [hds] at h; simp [exceptOk] at h
      | ok r =>
        rcases r with ⟨props, children, st2⟩
        simp [dict_scan, is_literal, hds, exceptOk]
    | .str x =>
      have h := dict_scan_ok rest level st
      cases hds : dict_scan rest level st with
      | error e => rw [hds] at h; simp [exceptOk] at h
      | ok r =>
        rcases r with ⟨props, children, st2⟩
        simp [dict_scan, is_literal, hds, exceptOk]
    | .bool x =>
      have h := dict_scan_ok rest level st
      cases hds : dict_scan rest level st with
      | error e => rw [hds] at h; simp [exceptOk] at h
      | ok r =>
        rcases r with ⟨props, children, st2⟩
        simp [dict_scan, is_literal, hds, exceptOk]
    | .null => simpa [dict_scan, is_literal, exceptOk] using dict_scan_ok rest level st
    | .obj sub =>
      have hc := create_nodes_ok (.obj sub) k (level + 1) st
      cases hcn : create_nodes_from_python_data (.obj sub) k (level + 1) st with
      | error e => rw [hcn] at hc; simp [exceptOk] at hc
      | ok r =>
        rcases r with ⟨ids, st2⟩
        obtain ⟨nid, hids, _⟩ := cnfpd_obj_shape sub k (level + 1) st ids st2 hcn
        subst hids
        have h := dict_scan_ok rest level st2
        cases hds : dict_scan rest level st2 with
        | error e => rw [hds] at h; simp [exceptOk] at h
        | ok r2 =>
          rcases r2 with ⟨props, children, st3⟩
          simp [dict_scan, is_literal, hcn, hds, exceptOk]
    | .arr sub =>
      have hli := list_importer_ok sub k level st
      cases hl : list_importer sub k level st with
      | error e => rw [hl] at hli; simp [exceptOk] at hli
      | ok r =>
        rcases r with ⟨ids, st2⟩
        have h := dict_scan_ok rest level st2
        cases hds : dict_scan rest level st2 with
        | error e => rw [hds] at h; simp [exceptOk] at h
        | ok r2 =>
          rcases r2 with ⟨props, children, st3⟩
          simp [dict_scan, is_literal, hl, hds, exceptOk]
termination_by 3 * dsize entries + 1
decreasing_by
  all_goals (simp [jsize, jaux, lsize, dsize] <;> omega)

theorem list_importer_ok (items : List Json) (labels : String) (level : Nat) (st : TStore) :
    exceptOk (list_importer items labels level st) = true := by
  match items with
  | [] => simp [list_importer, exceptOk]
  | item :: rest =>
    have hc := create_nodes_ok item labels (level + 1) st
    cases hcn : create_nodes_from_python_data item labels (level + 1) st with
    | error e => rw [hcn] at hc; simp [exceptOk] at hc
    | ok r =>
      rcases r with ⟨ids, st2⟩
      have h := list_importer_ok rest labels level st2
      cases hli : list_importer rest labels level st2 with
      | error e => rw [hli] at h; simp [exceptOk] at h
      | ok r2 =>
        rcases r2 with ⟨ids2, st3⟩
        simp [list_importer, hcn, hli, exceptOk]
termination_by 3 * lsize items + 1
decreasing_by
  all_goals (simp [jsize, jaux, lsize, dsize] <;> omega)

end

/-- Helper: `dict_importer` applied to the wrapped dictionary {"value": literal}:
its scan collects the single property and no children, so it reduces to one
`create_node_with_links` call, which is exactly `literal_importer`. -/
theorem dict_importer_literal_singleton (lit : Json) (labels : String) (level : Nat)
    (st : TStore) (h : is_literal lit = true) :
    dict_importer [("value", lit)] labels level st =
      .ok (create_node_with_links labels [("value", lit)] [] st) := by
  match lit, h with
  | .num x, _ => simp [dict_importer, dict_scan, is_literal]
  | .str x, _ => simp [dict_importer, dict_scan, is_literal]
  | .bool x, _ => simp [dict_importer, dict_scan, is_literal]

/-- C6: for every dict input the tree importer returns a list with exactly one
root id (the dict branch returns the literal one-element list `[new_root_id]`,
lines 2655-2659), and no input ever makes the importer return the
`multipleRoots` error: the MultipleRootsError branch of `dict_importer`
(lines 2715-2716) is unreachable for every JSON input, so it can only signal
an internal defect, never an input-validation failure. -/
theorem dict_import_single_root_multipleRoots_unreachable :
    (∀ entries labels level st, ∃ nid st2,
        create_nodes_from_python_data (.obj entries) labels level st = .ok ([nid], st2)) ∧
    (∀ j labels level st,
        create_nodes_from_python_data j labels level st ≠ .error .multipleRoots) := by
  constructor
  · intro entries labels level st
    have h := create_nodes_ok (.obj entries) labels level st
    cases hc : create_nodes_from_python_data (.obj entries) labels level st with
    | error e => rw [hc] at h; simp [exceptOk] at h
    | ok r =>
      rcases r with ⟨ids, st2⟩
      obtain ⟨nid, hids, _⟩ := cnfpd_obj_shape entries labels level st ids st2 hc
      subst hids
      exact ⟨nid, st2, rfl⟩
  · intro j labels level st
    have h := create_nodes_ok j labels level st
    cases hc : create_nodes_from_python_data j labels level st with
    | error e => rw [hc] at h; simp [exceptOk] at h
    | ok r => simp

/-- C8: a scalar literal is imported by wrapping it as the object
{"value": literal} and proceeding through the object case; in particular
the import of the literal 42 under root labels "N" creates exactly one node with
label N and properties {value: 42} and returns that single node's id. -/
theorem literal_import_wraps_as_value_object :
    (∀ lit labels level st, is_literal lit = true →
        create_nodes_from_python_data lit labels level st =
          create_nodes_from_python_data (.obj [("value", lit)]) labels level st) ∧
    create_nodes_from_python_data (.num 42) "N" 1 ⟨0, [], []⟩ =
      .ok ([0], ⟨1, [⟨0, "N", [("value", .num 42)]⟩], []⟩) := by
  constructor
  · intro lit labels level st hlit
    match lit, hlit with
    | .num x, _ =>
      simp [create_nodes_from_python_data, literal_importer,
            dict_importer_literal_singleton (.num x) labels level st rfl]
    | .str x, _ =>
      simp [create_nodes_from_python_data, literal_importer,
            dict_importer_literal_singleton (.str x) labels level st rfl]
    | .bool x, _ =>
      simp [create_nodes_from_python_data, literal_importer,
            dict_importer_literal_singleton (.bool x) labels level st rfl]
  · simp [create_nodes_from_python_data, literal_importer, create_node_with_links]

/-- Witness for C8: the general wrapping equation applied to the literal 7. -/
theorem literal_import_wraps_as_value_object_witness :
    is_literal (.num 7) = true ∧
    create_nodes_from_python_data (.num 7) "X" 1 ⟨5, [], []⟩ =
      create_nodes_from_python_data (.obj [("value", .num 7)]) "X" 1 ⟨5, [], []⟩ :=
  ⟨rfl, literal_import_wraps_as_value_object.1 (.num 7) "X" 1 ⟨5, [], []⟩ rfl⟩

/-- C7: a top-level array (level 1) is imported as the concatenation of the id
lists of its elements, with no grouping node created; in particular importing
[1, 2] under labels "N" creates two independent nodes with properties
{value: 1} and {value: 2} and no relationship at all (so no shared parent). -/
theorem top_level_array_forest :
    (∀ items labels st children st2,
        list_importer items labels 1 st = .ok (children, st2) →
        create_nodes_from_python_data (.arr items) labels 1 st = .ok (children, st2)) ∧
    (∀ item rest labels st ids1 st1 ids2 st2,
        create_nodes_from_python_data item labels 2 st = .ok (ids1, st1) →
        list_importer rest labels 1 st1 = .ok (ids2, st2) →
        list_importer (item :: rest) labels 1 st = .ok (ids1 ++ ids2, st2)) ∧
    create_nodes_from_python_data (.arr [.num 1, .num 2]) "N" 1 ⟨0, [], []⟩ =
      .ok ([0, 1], ⟨2, [⟨0, "N", [("value", .num 1)]⟩, ⟨1, "N", [("value", .num 2)]⟩], []⟩) := by
  refine ⟨?_, ?_, ?_⟩
  · intro items labels st children st2 h
    simp [create_nodes_from_python_data, h]
  · intro item rest labels st ids1 st1 ids2 st2 h1 h2
    simp [list_importer, h1, h2]
  · simp [create_nodes_from_python_data, list_importer, literal_importer,
          create_node_with_links]

/-- Witness for C7: the no-grouping equation applied to the list [5]. -/
theorem top_level_array_forest_witness :
    list_importer [.num 5] "W" 1 ⟨0, [], []⟩ =
      .ok ([0], ⟨1, [⟨0, "W", [("value", .num 5)]⟩], []⟩) ∧
    create_nodes_from_python_data (.arr [.num 5]) "W" 1 ⟨0, [], []⟩ =
      .ok ([0], ⟨1, [⟨0, "W", [("value", .num 5)]⟩], []⟩) := by
  have h : list_importer [.num 5] "W" 1 ⟨0, [], []⟩ =
      .ok ([0], ⟨1, [⟨0, "W", [("value", .num 5)]⟩], []⟩) := by
    simp [list_importer, create_nodes_from_python_data, literal_importer,
          create_node_with_links]
  exact ⟨h, top_level_array_forest.1 [.num 5] "W" ⟨0, [], []⟩ [0]
    ⟨1, [⟨0, "W", [("value", .num 5)]⟩], []⟩ h⟩

/-- C1 counterexample: importing {"items": [1, 2]} under root label "R" does
NOT create an anonymous grouping node.  The `dict_importer` list branch
(lines 2722-2726) attaches the element roots directly to the dict node: the
result has only 3 nodes; the root node (id 2) carries TWO `items`
relationships straight to the two property-carrying leaves; and no node
labelled `items` without properties exists - refuting "linked via the relation
named by the key to exactly one anonymous grouping node". -/
theorem nested_array_grouping_counterexample :
    create_nodes_from_python_data (.obj [("items", .arr [.num 1, .num 2])]) "R" 1 ⟨0, [], []⟩ =
      .ok ([2],
        ⟨3,
         [⟨0, "items", [("value", .num 1)]⟩, ⟨1, "items", [("value", .num 2)]⟩, ⟨2, "R", []⟩],
         [⟨2, 0, "items"⟩, ⟨2, 1, "items"⟩]⟩) ∧
    (([⟨2, 0, "items"⟩, ⟨2, 1, "items"⟩] : List TEdge).filter
        (fun e => e.fromId == 2 && e.relName == "items")).length = 2 ∧
    ([⟨0, "items", [("value", .num 1)]⟩, ⟨1, "items", [("value", .num 2)]⟩,
      ⟨2, "R", []⟩] : List TNode).length = 3 ∧
    (([⟨0, "items", [("value", .num 1)]⟩, ⟨1, "items", [("value", .num 2)]⟩,
      ⟨2, "R", []⟩] : List TNode).filter
        (fun nd => nd.labels == "items" && nd.props.isEmpty)).length = 0 := by
  refine ⟨?_, rfl, rfl, rfl⟩
  simp [create_nodes_from_python_data, dict_importer, dict_scan, list_importer,
        literal_importer, create_node_with_links, is_literal]

/-- C1 amended: importing {"items": [1, 2]} under root label "R" creates one
root node R linked via relation `items` DIRECTLY to the two leaf nodes
{value: 1} and {value: 2}, with no intermediate node; an anonymous grouping
node (label = the incoming relation name, no properties, one relationship per
element root) is created only when a list is imported through
`create_nodes_from_python_data` at a non-root recursion level, i.e. when a
list occurs as an element of an enclosing list. -/
theorem nested_array_grouping_amended :
    (create_nodes_from_python_data (.obj [("items", .arr [.num 1, .num 2])]) "R" 1 ⟨0, [], []⟩ =
      .ok ([2],
        ⟨3,
         [⟨0, "items", [("value", .num 1)]⟩, ⟨1, "items", [("value", .num 2)]⟩, ⟨2, "R", []⟩],
         [⟨2, 0, "items"⟩, ⟨2, 1, "items"⟩]⟩)) ∧
    (∀ items labels level st children st1, 2 ≤ level →
        list_importer items labels level st = .ok (children, st1) →
        create_nodes_from_python_data (.arr items) labels level st =
          .ok ([st1.nextId],
            ⟨st1.nextId + 1,
             st1.nodes ++ [⟨st1.nextId, labels, []⟩],
             st1.edges ++ children.map (fun c => ⟨st1.nextId, c, labels⟩)⟩)) := by
  constructor
  · simp [create_nodes_from_python_data, dict_importer, dict_scan, list_importer,
          literal_importer, create_node_with_links, is_literal]
  · intro items labels level st children st1 hlev h
    have hne : level ≠ 1 := by omega
    simp [create_nodes_from_python_data, h, hne, create_node_with_links,
          List.map_map, Function.comp]

/-- If the node phase is about to make its (n+1)-st `create_node` call count
and the N-th call is the first one made to fail, the phase stops exactly there:
it reports N - 1 nodes, creates no relationship, and leaves N - 1 - n nodes
more in the store than it found. -/
theorem phase1_fail_at (nf : Nat → Bool) (N : Nat) (hN : nf N = true) :
    ∀ records n shift st,
      (∀ item ∈ records, node_record_ok item = true) →
      (∀ k, n < k → k < N → nf k = false) →
      n < N →
      N - n ≤ countNodeRecords records →
      ∃ st2, phase1 nf records n shift st = .fail (N - 1) .nodeCreationFailed st2 ∧
        st2.edges = st.edges ∧ st2.nodes.length = st.nodes.length + (N - 1 - n) := by
  intro records
  induction records with
  | nil =>
    intro n shift st _ _ hn hcount
    simp [countNodeRecords] at hcount
    omega
  | cons item rest ih =>
    intro n shift st hall hbef hn hcount
    have hok := hall item (by simp)
    cases hjt : jIndex item "type" with
    | error e => simp [node_record_ok, hjt] at hok
    | ok t =>
      by_cases ht : jeqStr t "node" = true
      · cases hji : jIndex item "id" with
        | error e => simp [node_record_ok, hjt, ht, hji] at hok
        | ok idv =>
          cases hpi : pyInt idv with
          | error e => simp [node_record_ok, hjt, ht, hji, hpi] at hok
          | ok old_id =>
            simp only [countNodeRecords, hjt] at hcount
            rw [if_pos ht] at hcount
            by_cases hfe : n + 1 = N
            · have hnf : nf (n + 1) = true := by rw [hfe]; exact hN
              refine ⟨st, ?_, rfl, by omega⟩
              have hstep : phase1_step nf item n shift st = .error .nodeCreationFailed := by
                simp [phase1_step, hjt, ht, hji, hpi, hnf]
              simp only [phase1, hstep]
              have hne : N - 1 = n := by omega
              rw [hne]
            · have hlt : n + 1 < N := by omega
              have hnf : nf (n + 1) = false := hbef (n + 1) (by omega) hlt
              have hstep : phase1_step nf item n shift st =
                  .ok (n + 1, updateShift shift old_id st.nextId,
                    { nextId := st.nextId + 1
                      , nodes := st.nodes ++ [⟨st.nextId, jGet item "labels", jGet item "properties"⟩]
                      , edges := st.edges }) := by
                simp [phase1_step, hjt, ht, hji, hpi, hnf, create_node]
              simp only [phase1, hstep]
              obtain ⟨st2, h1, h2, h3⟩ :=
                ih (n + 1) (updateShift shift old_id st.nextId)
                  { nextId := st.nextId + 1
                    , nodes := st.nodes ++ [⟨st.nextId, jGet item "labels", jGet item "properties"⟩]
                    , edges := st.edges }
                  (fun it hit => hall it (List.mem_cons_of_mem _ hit))
                  (fun k hk1 hk2 => hbef k (by omega) hk2) hlt (by omega)
              refine ⟨st2, h1, h2, ?_⟩
              simp only [List.length_append, List.length_singleton] at h3
              omega
      · have htf : jeqStr t "node" = false := by
          cases hb : jeqStr t "node"
          · rfl
          · exact absurd hb ht
        have hstep : phase1_step nf item n shift st = .ok (n, shift, st) := by
          simp [phase1_step, hjt, htf]
        simp only [phase1, hstep]
        simp only [countNodeRecords, hjt] at hcount
        rw [if_neg ht] at hcount
        exact ih n shift st (fun it hit => hall it (List.mem_cons_of_mem _ hit))
          hbef hn (by omega)

/-- C3: if the first N - 1 `create_node` calls of a restore succeed and the
N-th raises, the restore stops and fails reporting exactly N - 1 nodes and 0
relationships, no relationship has been created (the edges of the store are
untouched), and exactly N - 1 nodes were added.  Holds with the extended
validation off, and also with it on whenever the validation pass accepts the
records. -/
theorem restore_nth_node_failure_accounting
    (records : List Json) (ev : Bool) (nf : Nat → Bool) (N : Nat) (st : RStore)
    (hrec : ∀ item ∈ records, node_record_ok item = true)
    (hval : ev = true → validate_items records 0 = none)
    (hpos : 1 ≤ N)
    (hcount : N ≤ countNodeRecords records)
    (hbefore : ∀ k, 1 ≤ k → k < N → nf k = false)
    (hfail : nf N = true) :
    ∃ st2, import_json_dump records ev nf st =
        (.interrupted (N - 1) 0 .nodeCreationFailed, st2) ∧
      st2.edges = st.edges ∧ st2.nodes.length = st.nodes.length + (N - 1) := by
  obtain ⟨st2, hrun, he, hn⟩ :=
    phase1_fail_at nf N hfail records 0 (fun _ => none) st hrec
      (fun k hk1 hk2 => hbefore k hk1 hk2) (by omega) (by omega)
  cases ev with
  | false =>
    refine ⟨st2, ?_, he, by omega⟩
    simp [import_json_dump, hrun]
  | true =>
    refine ⟨st2, ?_, he, by omega⟩
    simp [import_json_dump, hval rfl, hrun]

/-- Witness for C3: two well-formed node records, with the second
`create_node` call set up to fail: 1 node imported, 0 relationships. -/
theorem restore_nth_node_failure_accounting_witness :
    ∃ st2,
      import_json_dump
        [.obj [("type", .str "node"), ("id", .num 1)],
         .obj [("type", .str "node"), ("id", .num 2)]]
        false (fun k => k == 2) ⟨0, [], []⟩ =
        (.interrupted (2 - 1) 0 .nodeCreationFailed, st2) ∧
      st2.edges = (⟨0, [], []⟩ : RStore).edges ∧
      st2.nodes.length = (⟨0, [], []⟩ : RStore).nodes.length + (2 - 1) :=
  restore_nth_node_failure_accounting
    [.obj [("type", .str "node"), ("id", .num 1)],
     .obj [("type", .str "node"), ("id", .num 2)]]
    false (fun k => k == 2) 2 ⟨0, [], []⟩
    (by intro item h; simp only [List.mem_cons, List.not_mem_nil, or_false] at h
        rcases h with h | h <;> subst h <;> rfl)
    (by intro h; simp at h)
    (by omega)
    (by simp [countNodeRecords, jIndex, lookupEntry, jeqStr])
    (by intro k h1 h2
        have hk : k = 1 := by omega
        subst hk
        rfl)
    rfl

/-- C2 [code bug at line 2872]: the relationship phase fails immediately on a
dangling reference and reports only the work completed before it, but in the
end-id-missing case the error names the START id, not the missing end id:
restoring node 1 plus a relationship 1 -> 99 fails after 1 node and 0
relationships with a dangling-end error naming id 1 (the claim expects 99).
The start-missing case is reported correctly: a record set with only a
relationship referencing 99 fails with the dangling-start error naming 99 and
relsImported == 0 (property P7). -/
theorem dangling_reference_error_reports :
    (import_json_dump
        [.obj [("type", .str "node"), ("id", .num 1)],
         .obj [("type", .str "relationship"), ("label", .str "L"),
               ("start", .obj [("id", .num 1)]), ("end", .obj [("id", .num 99)])]]
        false (fun _ => false) ⟨0, [], []⟩).1 =
      .interrupted 1 0 (.danglingEnd (.str "L") 1) ∧
    (import_json_dump
        [.obj [("type", .str "relationship"), ("label", .str "L"),
               ("start", .obj [("id", .num 99)]), ("end", .obj [("id", .num 99)])]]
        false (fun _ => false) ⟨0, [], []⟩).1 =
      .interrupted 0 0 (.danglingStart (.str "L") 99) :=
  ⟨rfl, rfl⟩

/-- C4: restoring node A (original id 1), node B (original id 2) and one
relationship A -> B labelled "L" succeeds with exactly 2 nodes and 1
relationship, and the relationship is created between the two NEWLY assigned
ids (`st.nextId` and `st.nextId + 1`, obtained through the id-shifting map),
not between the original ids 1 and 2: starting from a store whose next id is
100, the created relationship runs from 100 to 101. -/
theorem dump_round_trip (st : RStore) :
    import_json_dump
      [.obj [("type", .str "node"), ("id", .num 1), ("labels", .str "A")],
       .obj [("type", .str "node"), ("id", .num 2), ("labels", .str "B")],
       .obj [("type", .str "relationship"), ("label", .str "L"),
             ("start", .obj [("id", .num 1)]), ("end", .obj [("id", .num 2)])]]
      false (fun _ => false) st =
      (.ok 2 1,
       ⟨st.nextId + 2,
        st.nodes ++ [⟨st.nextId, some (.str "A"), none⟩, ⟨st.nextId + 1, some (.str "B"), none⟩],
        st.edges ++ [⟨st.nextId, st.nextId + 1, .str "L", none⟩]⟩) := by
  simp [import_json_dump, phase1, phase1_step, phase2, phase2_step, jIndex, lookupEntry,
        jGet, jeqStr, pyInt, create_node, link_nodes_by_ids, updateShift, List.append_assoc]

/-- C5 [code bug at line 2819]: with validation enabled, a malformed record
normally fails the restore before any mutation with an error carrying the
record's index and content (second and third conjuncts: an unparseable string
id, a non-dict record).  But a node record whose `id` is of a type `int()`
rejects with TypeError - for example null - escapes the `except ValueError`
clause, so the restore fails with a bare TypeError that carries NO record
index or content (first conjunct), contradicting the claim that every such
violation is reported with the offending record's index and content.  In all
three cases the store is unchanged. -/
theorem validation_failure_reporting :
    import_json_dump [.obj [("type", .str "node"), ("id", .null)]]
        true (fun _ => false) ⟨0, [], []⟩ =
      (.validationFailed (.pyRaised .typeError), ⟨0, [], []⟩) ∧
    import_json_dump [.obj [("type", .str "node"), ("id", .str "xyz")]]
        true (fun _ => false) ⟨0, [], []⟩ =
      (.validationFailed
        (.nodeIdNotInt 0 (.obj [("type", .str "node"), ("id", .str "xyz")])), ⟨0, [], []⟩) ∧
    import_json_dump [.num 5] true (fun _ => false) ⟨0, [], []⟩ =
      (.validationFailed (.notADict 0 (.num 5)), ⟨0, [], []⟩) :=
  ⟨rfl, rfl, rfl⟩

/-- C10: two node records with the same original id i: the node phase creates
a separate node for each and counts both, and the id-shifting map keeps only
the mapping written last, so a relationship referencing i is attached (at both
ends here) to the node created from the LAST such record (`st.nextId + 1`),
never to the first. -/
theorem duplicate_original_id_last_wins (i : Int) (l1 p1 l2 p2 : Json) (st : RStore) :
    import_json_dump
      [.obj [("type", .str "node"), ("id", .num i), ("labels", l1), ("properties", p1)],
       .obj [("type", .str "node"), ("id", .num i), ("labels", l2), ("properties", p2)],
       .obj [("type", .str "relationship"), ("label", .str "L"),
             ("start", .obj [("id", .num i)]), ("end", .obj [("id", .num i)])]]
      false (fun _ => false) st =
      (.ok 2 1,
       ⟨st.nextId + 2,
        st.nodes ++ [⟨st.nextId, some l1, some p1⟩, ⟨st.nextId + 1, some l2, some p2⟩],
        st.edges ++ [⟨st.nextId + 1, st.nextId + 1, .str "L", none⟩]⟩) := by
  simp [import_json_dump, phase1, phase1_step, phase2, phase2_step, jIndex, lookupEntry,
        jGet, jeqStr, pyInt, create_node, link_nodes_by_ids, updateShift, List.append_assoc]

/-- A record whose `type` value is neither `"node"` nor `"relationship"` makes
the node phase take its skip branch (the `if` at line 2840 is false). -/
theorem phase1_step_skips_unknown_type (nf : Nat → Bool) (item t : Json)
    (n : Nat) (shift : Int → Option Nat) (st : RStore)
    (hx : jIndex item "type" = .ok t) (hn : jeqStr t "node" = false) :
    phase1_step nf item n shift st = .ok (n, shift, st) := by
  simp [phase1_step, hx, hn]

/-- Deleting one unknown-`type` record anywhere in the list does not change
the node phase at all. -/
theorem phase1_skips_insert (nf : Nat → Bool) (item t : Json) (post : List Json)
    (hx : jIndex item "type" = .ok t) (hn : jeqStr t "node" = false) :
    ∀ pre n shift st,
      phase1 nf (pre ++ item :: post) n shift st = phase1 nf (pre ++ post) n shift st := by
  intro pre
  induction pre with
  | nil =>
    intro n shift st
    simp [phase1, phase1_step_skips_unknown_type nf item t n shift st hx hn]
  | cons a pre2 ih =>
    intro n shift st
    simp only [List.cons_append, phase1]
    cases phase1_step nf a n shift st with
    | error e => rfl
    | ok r =>
      rcases r with ⟨n2, sh2, st2⟩
      exact ih n2 sh2 st2

/-- A record whose `type` value is not `"relationship"` makes the relationship
phase take its skip branch (the `if` at line 2860 is false). -/
theorem phase2_step_skips_unknown_type (item t : Json) (shift : Int → Option Nat)
    (r : Nat) (st : RStore)
    (hx : jIndex item "type" = .ok t) (hr : jeqStr t "relationship" = false) :
    phase2_step item shift r st = .ok (r, st) := by
  simp [phase2_step, hx, hr]

/-- Deleting one unknown-`type` record anywhere in the list does not change
the relationship phase at all. -/
theorem phase2_skips_insert (item t : Json) (post : List Json)
    (hx : jIndex item "type" = .ok t) (hr : jeqStr t "relationship" = false) :
    ∀ (pre : List Json) (shift : Int → Option Nat) (r : Nat) (st : RStore),
      phase2 (pre ++ item :: post) shift r st = phase2 (pre ++ post) shift r st := by
  intro pre
  induction pre with
  | nil =>
    intro shift r st
    simp [phase2, phase2_step_skips_unknown_type item t shift r st hx hr]
  | cons a pre2 ih =>
    intro shift r st
    simp only [List.cons_append, phase2]
    cases phase2_step a shift r st with
    | error e => rfl
    | ok r2 =>
      rcases r2 with ⟨r3, st2⟩
      exact ih shift r3 st2

/-- C9: with extended validation disabled, a dict record whose `type` value is
neither `"node"` nor `"relationship"` is silently skipped by both phases: the
restore of a record list containing it is identical - same outcome, same
counts, same final store, no error - to the restore of the list without it. -/
theorem unknown_type_record_skipped_both_phases
    (pre post : List Json) (item t : Json) (nf : Nat → Bool) (st : RStore)
    (hx : jIndex item "type" = .ok t)
    (hn : jeqStr t "node" = false)
    (hr : jeqStr t "relationship" = false) :
    import_json_dump (pre ++ item :: post) false nf st =
      import_json_dump (pre ++ post) false nf st := by
  simp only [import_json_dump, Bool.false_eq_true, if_false]
  rw [phase1_skips_insert nf item t post hx hn pre 0 (fun _ => none) st]
  simp only [phase2_skips_insert item t post hx hr pre]

/-- Witness for C9: a record with type "weird" between two empty halves. -/
theorem unknown_type_record_skipped_both_phases_witness :
    import_json_dump ([] ++ (.obj [("type", .str "weird")]) :: []) false
        (fun _ => false) ⟨0, [], []⟩ =
      import_json_dump ([] ++ []) false (fun _ => false) ⟨0, [], []⟩ :=
  unknown_type_record_skipped_both_phases [] [] (.obj [("type", .str "weird")])
    (.str "weird") (fun _ => false) ⟨0, [], []⟩ rfl rfl rfl

/-- Witness for the amended C1: a one-element list imported at level 2 gets an
anonymous parent node labelled "S" with no properties and one relationship. -/
theorem nested_array_grouping_amended_witness :
    (2 ≤ 2 ∧ list_importer [.num 1] "S" 2 ⟨0, [], []⟩ =
        .ok ([0], ⟨1, [⟨0, "S", [("value", .num 1)]⟩], []⟩)) ∧
    create_nodes_from_python_data (.arr [.num 1]) "S" 2 ⟨0, [], []⟩ =
      .ok ([1], ⟨2, [⟨0, "S", [("value", .num 1)]⟩, ⟨1, "S", []⟩], [⟨1, 0, "S"⟩]⟩) := by
  have h : list_importer [.num 1] "S" 2 ⟨0, [], []⟩ =
      .ok ([0], ⟨1, [⟨0, "S", [("value", .num 1)]⟩], []⟩) := by
    simp [list_importer, create_nodes_from_python_data, literal_importer,
          create_node_with_links]
  exact ⟨⟨le_refl 2, h⟩,
    nested_array_grouping_amended.2 [.num 1] "S" 2 ⟨0, [], []⟩ [0]
      ⟨1, [⟨0, "S", [("value", .num 1)]⟩], []⟩ (le_refl 2) h⟩

end NeptuneAccess
